import Mathlib

/-!
Shallow embedding of the `panik` crate (src/src/lib.rs): application-wide
panic capture.  Panics on any thread during a supervised run are recorded
into a global registry (`State`); `run_and_handle_panics_with_maybe_debug`
arms the registry via `GlobalStateGuard.init`, runs the closure while the
panic hook appends records, reconciles the outcome, resolves a bounded
number of backtraces, and disarms via `GlobalStateGuard.drop`.

Concurrency is modelled by a `Run`: the arrival-ordered list of panic
events registered by the hook during the closure execution, together with
the closure outcome (normal return or the caller panicking).  Machine
integers do not overflow in this code path, so `Nat` is used directly.
-/

namespace Panik

/-- `DEFAULT_BACKTRACE_RESOLUTION_LIMIT` from lib.rs line 101. -/
def DEFAULT_BACKTRACE_RESOLUTION_LIMIT : Nat := 8

/-- Model of `backtrace::Backtrace`: only its resolution status is
observable to this crate. `Backtrace::new_unresolved` starts unresolved;
`resolve` symbolizes it. -/
structure Backtrace where
  resolved : Bool
deriving DecidableEq, Repr

/-- `Backtrace::new_unresolved()`. -/
def Backtrace.new_unresolved : Backtrace := { resolved := false }

/-- `Backtrace::resolve()` (in-place in Rust; functional here). -/
def Backtrace.resolve (_bt : Backtrace) : Backtrace := { resolved := true }

/-- The identity of the thread a panic occurred on: `std::thread::current()`,
exposing `id()` (modelled as `Nat`) and `name()`. -/
structure ThreadCtx where
  id : Nat
  name : Option String
deriving DecidableEq, Repr

/-- Model of `&PanicInfo`: `payloadStr` is the result of
`payload().downcast_ref::<&str>()`, `display` is `format!("{}", panic)`. -/
structure PanicInfo where
  payloadStr : Option String
  display : String
deriving DecidableEq, Repr

/-- The `Panic` record (lib.rs lines 151-157). -/
structure Panic where
  message : String
  thread_id : Nat
  thread : String
  backtrace : Backtrace
  backtrace_resolved : Bool
deriving DecidableEq, Repr

/-- The global `State` (lib.rs lines 140-147); the slog field is feature
gated logging and carries no observable state. -/
structure State where
  panics : List Panic
  backtrace_resolution_limit : Nat
  is_running : Bool
deriving DecidableEq, Repr

/-- `State::default()` (lib.rs lines 478-489). -/
def State.default : State :=
  { panics := []
  , backtrace_resolution_limit := DEFAULT_BACKTRACE_RESOLUTION_LIMIT
  , is_running := false }

/-- The thread label `format!("{:?} ({})", t.id(), name)` built in
`register_panic`, with the `"<unnamed>"` fallback (lib.rs lines 233-237). -/
def threadLabel (ctx : ThreadCtx) : String :=
  "ThreadId(" ++ toString ctx.id ++ ") (" ++ ctx.name.getD "<unnamed>" ++ ")"

/-- Message extraction in `register_panic` (lib.rs lines 240-244): a string
payload is used verbatim, otherwise the panic info is formatted generically. -/
def panicMessage (info : PanicInfo) : String :=
  match info.payloadStr with
  | some s => s
  | none => info.display

/-- The record pushed by `register_panic` (lib.rs lines 251-257). -/
def mkPanicRecord (ctx : ThreadCtx) (info : PanicInfo) : Panic :=
  { message := panicMessage info
  , thread_id := ctx.id
  , thread := threadLabel ctx
  , backtrace := Backtrace.new_unresolved
  , backtrace_resolved := false }

/-- `register_panic` (lib.rs lines 232-258): appends one record for the
current thread to the registry. -/
def register_panic (ctx : ThreadCtx) (info : PanicInfo) (st : State) : State :=
  { st with panics := st.panics ++ [mkPanicRecord ctx info] }

/-- One invocation of the installed panic hook during a supervised run:
either some worker thread panicked, or the caller thread itself did. -/
inductive Event where
  | worker (ctx : ThreadCtx) (info : PanicInfo)
  | caller (info : PanicInfo)
deriving DecidableEq, Repr

/-- The record the hook appends for an event, given the caller thread. -/
def Event.record (callerCtx : ThreadCtx) : Event → Panic
  | .worker ctx info => mkPanicRecord ctx info
  | .caller info => mkPanicRecord callerCtx info

/-- The hook body applied to one event: `register_panic` on the thread the
event occurred on. -/
def registerEvent (callerCtx : ThreadCtx) (st : State) : Event → State
  | .worker ctx info => register_panic ctx info st
  | .caller info => register_panic callerCtx info st

/-- One supervised run seen from the registry: the calling thread, the
arrival-ordered panic events the hook registered while the closure ran,
and the closure outcome caught by `catch_unwind` (`.error info` means the
closure panicked with payload `info`). -/
structure Run (R : Type) where
  caller : ThreadCtx
  events : List Event
  outcome : Except PanicInfo R

/-- The caller events among a run's events. -/
def Run.callerEvents {R : Type} (run : Run R) : List Event :=
  run.events.filter fun e => match e with | .caller _ => true | .worker _ _ => false

/-- Well-formedness of a run, reflecting how the installed hook behaves: a
closure that returns normally registered no caller panic; a closure caught
panicking with payload `info` had exactly that panic registered by the hook
before `catch_unwind` returned. -/
def Run.WF {R : Type} (run : Run R) : Prop :=
  run.callerEvents =
    (match run.outcome with
     | .ok _ => []
     | .error info => [Event.caller info])

instance {R : Type} (run : Run R) : Decidable run.WF := by
  unfold Run.WF
  exact inferInstance

/-- The fixed panic message of `GlobalStateGuard::init` on reentrancy
(lib.rs line 450). -/
def nested_panic_message : String :=
  "nested calls to panik::run_and_handle_panics are not supported"

/-- The message of `unreachable!()` (lib.rs line 338). -/
def unreachable_message : String :=
  "internal error: entered unreachable code"

/-- `GlobalStateGuard::init` (lib.rs lines 444-460): rejects nesting by
panicking (modelled as `.error`), otherwise clears the records, marks the
registry running and installs the hook. -/
def GlobalStateGuard.init (st : State) : Except String State :=
  if st.is_running then
    .error nested_panic_message
  else
    .ok { st with panics := [], is_running := true }

/-- `GlobalStateGuard::drop` (lib.rs lines 463-476): uninstalls the hook,
restores the default backtrace resolution limit and clears the running
flag. -/
def GlobalStateGuard.drop (st : State) : State :=
  { st with
    backtrace_resolution_limit := DEFAULT_BACKTRACE_RESOLUTION_LIMIT
  , is_running := false }

/-- The `iter_mut().enumerate()` loop of lib.rs lines 351-395: the record
at index `i` has its backtrace resolved and its flag set exactly when
`i.cmp(&limit)` is `Less`; the `Equal` and greater cases only log. -/
def resolve_backtraces (limit : Nat) : Nat → List Panic → List Panic
  | _, [] => []
  | i, p :: rest =>
    (if i < limit then
      { p with backtrace := p.backtrace.resolve, backtrace_resolved := true }
     else p) :: resolve_backtraces limit (i + 1) rest

/-- The take-mutate-put-back of lib.rs lines 347-400: net effect on the
registry is resolving backtraces of the first `backtrace_resolution_limit`
records. -/
def reconcile_failures (st : State) : State :=
  { st with
    panics := resolve_backtraces st.backtrace_resolution_limit 0 st.panics }

/-- `run_and_handle_panics_with_maybe_debug` (lib.rs lines 314-403).
Returns `.error msg` when the function itself panics out (nesting rejected
by the guard, or the `unreachable!()` arm), otherwise `.ok` with the
returned `Option R` and the final registry state after the guard drops. -/
def run_and_handle_panics_with_maybe_debug {R : Type} (st0 : State)
    (run : Run R) (format_swallowed : R → String) :
    Except String (Option R × State) :=
  match GlobalStateGuard.init st0 with
  | .error msg => .error msg
  | .ok st1 =>
    let st2 := run.events.foldl (registerEvent run.caller) st1
    match run.outcome, st2.panics.isEmpty with
    | .ok res, true => .ok (some res, GlobalStateGuard.drop st2)
    | .ok res, false =>
      let _swallowed := format_swallowed res
      .ok (none, GlobalStateGuard.drop (reconcile_failures st2))
    | .error _, false =>
      .ok (none, GlobalStateGuard.drop (reconcile_failures st2))
    | .error _, true => .error unreachable_message

/-- `run_and_handle_panics` (lib.rs lines 310-312): the swallowed result is
formatted with its `Debug` instance (`Repr` here). -/
def run_and_handle_panics {R : Type} [Repr R] (st0 : State) (run : Run R) :
    Except String (Option R × State) :=
  run_and_handle_panics_with_maybe_debug st0 run fun res => toString (repr res)

/-- `run_and_handle_panics_no_debug` (lib.rs lines 272-274). -/
def run_and_handle_panics_no_debug {R : Type} (st0 : State) (run : Run R) :
    Except String (Option R × State) :=
  run_and_handle_panics_with_maybe_debug st0 run fun _ => "<unprintable>"

/-- `panics()` (lib.rs lines 406-409). -/
def panics (st : State) : List Panic := st.panics

/-- `has_panicked()` (lib.rs lines 412-414). -/
def has_panicked (st : State) : Bool := !st.panics.isEmpty

/-- `Builder` (lib.rs lines 161-166); the slogger field is feature gated. -/
structure Builder where
  backtrace_resolution_limit : Nat
deriving DecidableEq, Repr

/-- `Builder::new` (lib.rs lines 171-178). -/
def Builder.new : Builder :=
  { backtrace_resolution_limit := DEFAULT_BACKTRACE_RESOLUTION_LIMIT }

/-- `Builder::backtrace_resolution_limit` setter (lib.rs lines 191-194). -/
def Builder.set_backtrace_resolution_limit (b : Builder) (n : Nat) : Builder :=
  { b with backtrace_resolution_limit := n }

/-- `Builder::apply_settings` (lib.rs lines 196-205). -/
def Builder.apply_settings (b : Builder) (st : State) : State :=
  { st with backtrace_resolution_limit := b.backtrace_resolution_limit }

/-- `Builder::run_and_handle_panics` (lib.rs lines 208-214), generalized
over the swallowed-result formatter as in the private entry point. -/
def Builder.run (b : Builder) {R : Type} (st0 : State) (run : Run R)
    (format_swallowed : R → String) : Except String (Option R × State) :=
  run_and_handle_panics_with_maybe_debug (b.apply_settings st0) run
    format_swallowed

def c2Info : PanicInfo := { payloadStr := some "oh no", display := "d" }

def c2Run : Run Nat :=
  { caller := { id := 1, name := some "main" }
  , events := [Event.caller c2Info]
  , outcome := .error c2Info }

def c3Worker : ThreadCtx := { id := 2, name := none }

def c3Info : PanicInfo := { payloadStr := some "teehee", display := "d" }

def c3Run : Run Nat :=
  { caller := { id := 1, name := some "main" }
  , events := [Event.worker c3Worker c3Info]
  , outcome := .ok 5 }

def c4Worker : ThreadCtx := { id := 2, name := none }

def c4Info : PanicInfo := { payloadStr := some "uh oh", display := "d" }

def c4Run : Run String :=
  { caller := { id := 1, name := some "main" }
  , events := [Event.worker c4Worker c4Info, Event.worker c4Worker c4Info,
      Event.worker c4Worker c4Info, Event.worker c4Worker c4Info,
      Event.worker c4Worker c4Info]
  , outcome := .ok "epic" }

def c4State : State :=
  (Builder.new.set_backtrace_resolution_limit 3).apply_settings State.default

def c5Info : PanicInfo :=
  { payloadStr := some nested_panic_message, display := "d" }

def c5Run : Run Nat :=
  { caller := { id := 1, name := some "main" }
  , events := [Event.caller c5Info]
  , outcome := .error c5Info }

def c5Inner : Run Nat :=
  { caller := { id := 1, name := some "main" }, events := [],
    outcome := .ok 5 }

def c6Info : PanicInfo := { payloadStr := some "numero one", display := "d" }

def c6Run1 : Run Nat :=
  { caller := { id := 1, name := some "main" }
  , events := [Event.caller c6Info]
  , outcome := .error c6Info }

def c6Run2 : Run Nat :=
  { caller := { id := 1, name := some "main" }, events := [],
    outcome := .ok 1 }

def c6Rec : Panic :=
  { message := "numero one", thread_id := 1,
    thread := "ThreadId(1) (main)", backtrace := { resolved := true },
    backtrace_resolved := true }

def c6Mid : State :=
  { panics := [c6Rec]
  , backtrace_resolution_limit := 8
  , is_running := false }

def c7St0 : State :=
  { panics := [], backtrace_resolution_limit := 3, is_running := false }

def c7Info : PanicInfo := { payloadStr := some "oh no", display := "d" }

def c7Run : Run Nat :=
  { caller := { id := 1, name := some "main" }
  , events := [Event.caller c7Info]
  , outcome := .error c7Info }

def c7Rec : Panic :=
  { message := "oh no", thread_id := 1,
    thread := "ThreadId(1) (main)", backtrace := { resolved := true },
    backtrace_resolved := true }

def c7Out : State :=
  { panics := [c7Rec]
  , backtrace_resolution_limit := 8
  , is_running := false }

def c9Info : PanicInfo := { payloadStr := some "oh no", display := "d" }

def c9Run : Run Nat :=
  { caller := { id := 1, name := some "main" }
  , events := [Event.caller c9Info]
  , outcome := .error c9Info }

def c10Worker : ThreadCtx := { id := 7, name := some "worker" }

def c10WInfo : PanicInfo :=
  { payloadStr := none, display := "panicked at Box<dyn Any>" }

def c10CInfo : PanicInfo := { payloadStr := some "me too", display := "d" }

def c10Run : Run Nat :=
  { caller := { id := 1, name := some "main" }
  , events := [Event.worker c10Worker c10WInfo, Event.caller c10CInfo]
  , outcome := .error c10CInfo }

def c10RecW : Panic :=
  { message := "panicked at Box<dyn Any>", thread_id := 7,
    thread := "ThreadId(7) (worker)", backtrace := { resolved := true },
    backtrace_resolved := true }

def c10RecC : Panic :=
  { message := "me too", thread_id := 1,
    thread := "ThreadId(1) (main)", backtrace := { resolved := true },
    backtrace_resolved := true }

def c10Out : State :=
  { panics := [c10RecW, c10RecC]
  , backtrace_resolution_limit := 8
  , is_running := false }


theorem registerEvent_eq (c : ThreadCtx) (st : State) (e : Event) :
    registerEvent c st e = { st with panics := st.panics ++ [e.record c] } := by
  cases e <;> rfl

theorem foldl_registerEvent (c : ThreadCtx) (events : List Event) (st : State) :
    events.foldl (registerEvent c) st =
      { st with panics := st.panics ++ events.map (Event.record c) } := by
  induction events generalizing st with
  | nil => simp
  | cons e es ih => simp [List.foldl_cons, registerEvent_eq, ih]

theorem Event.record_backtrace_resolved (c : ThreadCtx) (e : Event) :
    (e.record c).backtrace_resolved = false := by
  cases e <;> rfl

theorem resolve_backtraces_length (L k : Nat) (ps : List Panic) :
    (resolve_backtraces L k ps).length = ps.length := by
  induction ps generalizing k with
  | nil => rfl
  | cons p rest ih => simp [resolve_backtraces, ih]

theorem resolve_backtraces_get? (L k i : Nat) (ps : List Panic) :
    (resolve_backtraces L k ps).get? i =
      (ps.get? i).map (fun p =>
        if k + i < L then
          { p with backtrace := p.backtrace.resolve, backtrace_resolved := true }
        else p) := by
  induction ps generalizing k i with
  | nil => simp [resolve_backtraces]
  | cons p rest ih =>
    cases i with
    | zero => simp [resolve_backtraces]
    | succ n =>
      simp only [resolve_backtraces, List.get?_cons_succ, ih]
      have harith : k + 1 + n = k + (n + 1) := by omega
      rw [harith]

theorem resolve_backtraces_map_message (L k : Nat) (ps : List Panic) :
    (resolve_backtraces L k ps).map Panic.message = ps.map Panic.message := by
  induction ps generalizing k with
  | nil => rfl
  | cons p rest ih =>
    simp only [resolve_backtraces, List.map_cons, ih]
    split <;> rfl

theorem resolve_backtraces_map_thread_id (L k : Nat) (ps : List Panic) :
    (resolve_backtraces L k ps).map Panic.thread_id = ps.map Panic.thread_id := by
  induction ps generalizing k with
  | nil => rfl
  | cons p rest ih =>
    simp only [resolve_backtraces, List.map_cons, ih]
    split <;> rfl

theorem resolve_backtraces_map_thread (L k : Nat) (ps : List Panic) :
    (resolve_backtraces L k ps).map Panic.thread = ps.map Panic.thread := by
  induction ps generalizing k with
  | nil => rfl
  | cons p rest ih =>
    simp only [resolve_backtraces, List.map_cons, ih]
    split <;> rfl

theorem resolve_backtraces_resolved_count (L k : Nat) (ps : List Panic)
    (h : ∀ p ∈ ps, p.backtrace_resolved = false) :
    ((resolve_backtraces L k ps).filter (fun p => p.backtrace_resolved)).length
      = min (L - k) ps.length := by
  induction ps generalizing k with
  | nil => simp [resolve_backtraces]
  | cons p rest ih =>
    have hrest : ∀ q ∈ rest, q.backtrace_resolved = false :=
      fun q hq => h q (List.mem_cons_of_mem p hq)
    have hp : p.backtrace_resolved = false := h p (List.mem_cons_self p rest)
    by_cases hk : k < L
    · simp [resolve_backtraces, hk, ih (k + 1) hrest]
      omega
    · simp [resolve_backtraces, hk, hp, ih (k + 1) hrest]
      omega

theorem resolve_backtraces_unresolved_count (L k : Nat) (ps : List Panic)
    (h : ∀ p ∈ ps, p.backtrace_resolved = false) :
    ((resolve_backtraces L k ps).filter (fun p => !p.backtrace_resolved)).length
      = ps.length - min (L - k) ps.length := by
  induction ps generalizing k with
  | nil => simp [resolve_backtraces]
  | cons p rest ih =>
    have hrest : ∀ q ∈ rest, q.backtrace_resolved = false :=
      fun q hq => h q (List.mem_cons_of_mem p hq)
    have hp : p.backtrace_resolved = false := h p (List.mem_cons_self p rest)
    by_cases hk : k < L
    · simp [resolve_backtraces, hk, ih (k + 1) hrest]
      omega
    · simp [resolve_backtraces, hk, hp, ih (k + 1) hrest]
      omega

theorem run_main_nested {R : Type} (st0 : State) (run : Run R)
    (fmt : R → String) (hr : st0.is_running = true) :
    run_and_handle_panics_with_maybe_debug st0 run fmt =
      .error nested_panic_message := by
  simp [run_and_handle_panics_with_maybe_debug, GlobalStateGuard.init, hr]

theorem run_main_success {R : Type} (st0 : State) (run : Run R)
    (fmt : R → String) (res : R) (hr : st0.is_running = false)
    (hev : run.events = []) (hout : run.outcome = .ok res) :
    run_and_handle_panics_with_maybe_debug st0 run fmt =
      .ok (some res,
        { st0 with
          panics := []
        , backtrace_resolution_limit := DEFAULT_BACKTRACE_RESOLUTION_LIMIT
        , is_running := false }) := by
  simp [run_and_handle_panics_with_maybe_debug, GlobalStateGuard.init, hr,
    hev, hout, GlobalStateGuard.drop]

theorem run_main_failing {R : Type} (st0 : State) (run : Run R)
    (fmt : R → String) (hr : st0.is_running = false)
    (hne : run.events ≠ []) :
    run_and_handle_panics_with_maybe_debug st0 run fmt =
      .ok (none,
        { st0 with
          panics := resolve_backtraces st0.backtrace_resolution_limit 0
              (run.events.map (Event.record run.caller))
        , backtrace_resolution_limit := DEFAULT_BACKTRACE_RESOLUTION_LIMIT
        , is_running := false }) := by
  have hmap : ((run.events.map (Event.record run.caller)).isEmpty) = false := by
    cases hev : run.events with
    | nil => exact absurd hev hne
    | cons e es => simp [hev]
  cases hout : run.outcome <;>
    simp [run_and_handle_panics_with_maybe_debug, GlobalStateGuard.init, hr,
      foldl_registerEvent, hmap, reconcile_failures, GlobalStateGuard.drop,
      hout]


theorem run_main_unreachable {R : Type} (st0 : State) (run : Run R)
    (fmt : R → String) (info : PanicInfo) (hr : st0.is_running = false)
    (hev : run.events = []) (hout : run.outcome = .error info) :
    run_and_handle_panics_with_maybe_debug st0 run fmt =
      .error unreachable_message := by
  simp [run_and_handle_panics_with_maybe_debug, GlobalStateGuard.init, hr,
    hev, hout, foldl_registerEvent]

theorem has_panicked_eq_true_of_ne_nil (st : State) (h : st.panics ≠ []) :
    has_panicked st = true := by
  cases hp : st.panics with
  | nil => exact absurd hp h
  | cons a l => simp [has_panicked, hp]

/-- C1: a supervised run whose closure returns normally with value `res`
and during which no panic was registered returns `Some res`, and right
after the call `has_panicked()` is false and `panics()` is empty. -/
theorem run_success_no_panics {R : Type} (st0 : State) (run : Run R)
    (fmt : R → String) (res : R) (hr : st0.is_running = false)
    (hev : run.events = []) (hout : run.outcome = .ok res) :
    ∃ stf : State,
      run_and_handle_panics_with_maybe_debug st0 run fmt = .ok (some res, stf)
        ∧ has_panicked stf = false ∧ panics stf = [] := by
  exact ⟨_, run_main_success st0 run fmt res hr hev hout, rfl, rfl⟩

theorem run_success_no_panics_witness :
    ∃ stf : State,
      run_and_handle_panics_with_maybe_debug State.default
          { caller := { id := 1, name := some "main" }, events := [],
            outcome := .ok 5 }
          (fun n : Nat => toString n) = .ok (some 5, stf)
        ∧ has_panicked stf = false ∧ panics stf = [] :=
  run_success_no_panics State.default
    { caller := { id := 1, name := some "main" }, events := [],
      outcome := .ok 5 }
    (fun n : Nat => toString n) 5 rfl rfl rfl

/-- C2: a supervised run whose closure panics exactly once on the calling
thread with string payload `M`, with no other panic, returns `None`;
`panics()` has length 1 and its record carries message `M` and the calling
thread id. -/
theorem run_caller_panic_single_record {R : Type} (st0 : State) (run : Run R)
    (fmt : R → String) (info : PanicInfo) (M : String)
    (hr : st0.is_running = false)
    (hev : run.events = [Event.caller info])
    (_hout : run.outcome = .error info)
    (hmsg : info.payloadStr = some M) :
    ∃ stf : State,
      run_and_handle_panics_with_maybe_debug st0 run fmt = .ok (none, stf)
        ∧ (panics stf).length = 1
        ∧ (panics stf).map Panic.message = [M]
        ∧ (panics stf).map Panic.thread_id = [run.caller.id] := by
  have hne : run.events ≠ [] := by simp [hev]
  refine ⟨_, run_main_failing st0 run fmt hr hne, ?_, ?_, ?_⟩
  · dsimp only [panics]
    rw [resolve_backtraces_length, List.length_map, hev]
    rfl
  · dsimp only [panics]
    rw [resolve_backtraces_map_message, hev]
    simp [Event.record, mkPanicRecord, panicMessage, hmsg]
  · dsimp only [panics]
    rw [resolve_backtraces_map_thread_id, hev]
    simp [Event.record, mkPanicRecord]

theorem run_caller_panic_single_record_witness :
    ∃ stf : State,
      run_and_handle_panics_with_maybe_debug State.default c2Run
          (fun n : Nat => toString n) = .ok (none, stf)
        ∧ (panics stf).length = 1
        ∧ (panics stf).map Panic.message = ["oh no"]
        ∧ (panics stf).map Panic.thread_id = [1] :=
  run_caller_panic_single_record State.default c2Run
    (fun n : Nat => toString n) c2Info "oh no" rfl rfl rfl rfl

/-- C3: when a non-calling thread panics with payload "teehee" while the
closure returns a value normally, the run returns `None` (the value is
discarded), `panics()` has exactly one record, its message is "teehee" and
its thread id is the worker id, which is not the calling thread id. -/
theorem run_worker_panic_swallows_result {R : Type} (st0 : State)
    (run : Run R) (fmt : R → String) (w : ThreadCtx) (info : PanicInfo)
    (res : R)
    (hr : st0.is_running = false)
    (hev : run.events = [Event.worker w info])
    (_hout : run.outcome = .ok res)
    (hid : w.id ≠ run.caller.id)
    (hmsg : info.payloadStr = some "teehee") :
    ∃ stf : State,
      run_and_handle_panics_with_maybe_debug st0 run fmt = .ok (none, stf)
        ∧ (panics stf).length = 1
        ∧ (panics stf).map Panic.message = ["teehee"]
        ∧ (panics stf).map Panic.thread_id = [w.id]
        ∧ ∀ p ∈ panics stf, p.thread_id ≠ run.caller.id := by
  have hne : run.events ≠ [] := by simp [hev]
  have hmapt : (resolve_backtraces st0.backtrace_resolution_limit 0
      (run.events.map (Event.record run.caller))).map Panic.thread_id
      = [w.id] := by
    rw [resolve_backtraces_map_thread_id, hev]
    simp [Event.record, mkPanicRecord]
  refine ⟨_, run_main_failing st0 run fmt hr hne, ?_, ?_, hmapt, ?_⟩
  · dsimp only [panics]
    rw [resolve_backtraces_length, List.length_map, hev]
    rfl
  · dsimp only [panics]
    rw [resolve_backtraces_map_message, hev]
    simp [Event.record, mkPanicRecord, panicMessage, hmsg]
  · intro p hp
    have h2 : p.thread_id ∈ [w.id] := by
      rw [← hmapt]
      exact List.mem_map_of_mem Panic.thread_id hp
    rw [List.mem_singleton.mp h2]
    exact hid

theorem run_worker_panic_swallows_result_witness :
    ∃ stf : State,
      run_and_handle_panics_with_maybe_debug State.default c3Run
          (fun n : Nat => toString n) = .ok (none, stf)
        ∧ (panics stf).length = 1
        ∧ (panics stf).map Panic.message = ["teehee"]
        ∧ (panics stf).map Panic.thread_id = [2]
        ∧ ∀ p ∈ panics stf, p.thread_id ≠ 1 :=
  run_worker_panic_swallows_result State.default c3Run
    (fun n : Nat => toString n) c3Worker c3Info 5 rfl rfl rfl
    (by decide) rfl

/-- C4: in a failing run the record at index `i` gets its backtrace
resolved exactly when `i < budget` (strict); so exactly `min budget n`
records are resolved and the remaining `n - min budget n` are not. -/
theorem resolve_budget_strict_lt {R : Type} (st0 : State) (run : Run R)
    (fmt : R → String) (b : Nat)
    (hr : st0.is_running = false)
    (hb : st0.backtrace_resolution_limit = b)
    (hne : run.events ≠ []) :
    ∃ stf : State,
      run_and_handle_panics_with_maybe_debug st0 run fmt = .ok (none, stf)
        ∧ (panics stf).length = run.events.length
        ∧ (∀ i : Nat, ∀ p : Panic, (panics stf).get? i = some p →
            p.backtrace_resolved = decide (i < b))
        ∧ ((panics stf).filter (fun p => p.backtrace_resolved)).length
            = min b run.events.length
        ∧ ((panics stf).filter (fun p => !p.backtrace_resolved)).length
            = run.events.length - min b run.events.length := by
  have hall : ∀ q ∈ run.events.map (Event.record run.caller),
      q.backtrace_resolved = false := by
    intro q hq
    obtain ⟨e, -, rfl⟩ := List.mem_map.mp hq
    exact Event.record_backtrace_resolved run.caller e
  refine ⟨_, run_main_failing st0 run fmt hr hne, ?_, ?_, ?_, ?_⟩
  · dsimp only [panics]
    rw [resolve_backtraces_length, List.length_map]
  · intro i p hp
    dsimp only [panics] at hp
    rw [hb, resolve_backtraces_get?] at hp
    cases hq : (run.events.map (Event.record run.caller)).get? i with
    | none => rw [hq] at hp; simp at hp
    | some q =>
      rw [hq] at hp
      simp only [Option.map_some', Option.some.injEq] at hp
      have hqf : q.backtrace_resolved = false := hall q (List.get?_mem hq)
      rw [← hp]
      by_cases hib : i < b
      · simp [Nat.zero_add, hib]
      · simp [Nat.zero_add, hib, hqf]
  · dsimp only [panics]
    rw [hb, resolve_backtraces_resolved_count b 0 _ hall]
    rw [Nat.sub_zero, List.length_map]
  · dsimp only [panics]
    rw [hb, resolve_backtraces_unresolved_count b 0 _ hall]
    rw [Nat.sub_zero, List.length_map]

theorem resolve_budget_strict_lt_witness :
    ∃ stf : State,
      run_and_handle_panics_with_maybe_debug c4State c4Run (fun s => s)
          = .ok (none, stf)
        ∧ (panics stf).length = 5
        ∧ (∀ i : Nat, ∀ p : Panic, (panics stf).get? i = some p →
            p.backtrace_resolved = decide (i < 3))
        ∧ ((panics stf).filter (fun p => p.backtrace_resolved)).length = 3
        ∧ ((panics stf).filter (fun p => !p.backtrace_resolved)).length = 2 :=
  resolve_budget_strict_lt c4State c4Run (fun s => s) 3 rfl rfl (by decide)

/-- C5 counterexample: arming while already running panics with the fixed
message of lib.rs line 450, which is not the text
"nested supervised runs are not supported" stated by the claim. -/
theorem nested_message_counterexample :
    run_and_handle_panics_with_maybe_debug
        { State.default with is_running := true }
        { caller := { id := 1, name := none }, events := [],
          outcome := .ok 0 }
        (fun n : Nat => toString n)
      = .error "nested calls to panik::run_and_handle_panics are not supported"
    ∧ "nested calls to panik::run_and_handle_panics are not supported"
      ≠ "nested supervised runs are not supported" :=
  ⟨rfl, by decide⟩

/-- C5 amended: arming while the registry is already running makes the run
itself panic with the fixed message
"nested calls to panik::run_and_handle_panics are not supported" (its
return value is never produced), and an outer supervised run that catches
exactly that panic from its closure ends with `None` and exactly one
record whose message is that text. -/
theorem nested_run_reports_actual_message {R S : Type}
    (stIn : State) (runIn : Run S) (fmtIn : S → String)
    (st0 : State) (run : Run R) (fmt : R → String) (info : PanicInfo)
    (hin : stIn.is_running = true)
    (hr : st0.is_running = false)
    (hev : run.events = [Event.caller info])
    (_hout : run.outcome = .error info)
    (hmsg : info.payloadStr = some nested_panic_message) :
    run_and_handle_panics_with_maybe_debug stIn runIn fmtIn
        = .error nested_panic_message
      ∧ ∃ stf : State,
          run_and_handle_panics_with_maybe_debug st0 run fmt
              = .ok (none, stf)
            ∧ (panics stf).length = 1
            ∧ (panics stf).map Panic.message = [nested_panic_message] := by
  refine ⟨run_main_nested stIn runIn fmtIn hin, ?_⟩
  have hne : run.events ≠ [] := by simp [hev]
  refine ⟨_, run_main_failing st0 run fmt hr hne, ?_, ?_⟩
  · dsimp only [panics]
    rw [resolve_backtraces_length, List.length_map, hev]
    rfl
  · dsimp only [panics]
    rw [resolve_backtraces_map_message, hev]
    simp [Event.record, mkPanicRecord, panicMessage, hmsg]

theorem nested_run_reports_actual_message_witness :
    run_and_handle_panics_with_maybe_debug
        { State.default with is_running := true } c5Inner
        (fun n : Nat => toString n)
        = .error nested_panic_message
      ∧ ∃ stf : State,
          run_and_handle_panics_with_maybe_debug State.default c5Run
              (fun n : Nat => toString n) = .ok (none, stf)
            ∧ (panics stf).length = 1
            ∧ (panics stf).map Panic.message = [nested_panic_message] :=
  nested_run_reports_actual_message
    { State.default with is_running := true } c5Inner
    (fun n : Nat => toString n) State.default c5Run
    (fun n : Nat => toString n) c5Info rfl rfl rfl rfl rfl

/-- C6: after a failing run followed by a clean run, the registry holds no
records: the second call returns `Some res`, `has_panicked()` is false and
`panics()` is empty; records of run 1 (which existed, `has_panicked` was
true in between) were cleared at the second scope acquisition. -/
theorem sequential_runs_reset {R S : Type} (st0 st1 : State)
    (run1 : Run R) (fmt1 : R → String) (run2 : Run S) (fmt2 : S → String)
    (res : S)
    (hr : st0.is_running = false)
    (hne : run1.events ≠ [])
    (h1 : run_and_handle_panics_with_maybe_debug st0 run1 fmt1
        = .ok (none, st1))
    (hev2 : run2.events = []) (hout2 : run2.outcome = .ok res) :
    has_panicked st1 = true
      ∧ ∃ st2 : State,
          run_and_handle_panics_with_maybe_debug st1 run2 fmt2
              = .ok (some res, st2)
            ∧ has_panicked st2 = false ∧ panics st2 = [] := by
  have h1R := run_main_failing st0 run1 fmt1 hr hne
  rw [h1] at h1R
  simp only [Except.ok.injEq, Prod.mk.injEq, true_and] at h1R
  subst h1R
  constructor
  · apply has_panicked_eq_true_of_ne_nil
    intro hnil
    dsimp only at hnil
    have hlen := congrArg List.length hnil
    rw [resolve_backtraces_length, List.length_map, List.length_nil] at hlen
    exact hne (List.eq_nil_of_length_eq_zero hlen)
  · exact ⟨_, run_main_success _ run2 fmt2 res rfl hev2 hout2, rfl, rfl⟩

theorem sequential_runs_reset_witness :
    has_panicked c6Mid = true
      ∧ ∃ st2 : State,
          run_and_handle_panics_with_maybe_debug c6Mid c6Run2
              (fun n : Nat => toString n) = .ok (some 1, st2)
            ∧ has_panicked st2 = false ∧ panics st2 = [] :=
  sequential_runs_reset State.default c6Mid c6Run1
    (fun n : Nat => toString n) c6Run2 (fun n : Nat => toString n) 1
    rfl (by decide) rfl rfl rfl

/-- C7: every completed supervised run, on any exit path (success,
swallowed result, or the caller itself panicking), leaves the registry
with the backtrace resolution limit restored to the default 8 and the
running flag cleared. -/
theorem scope_release_restores_defaults {R : Type} (st0 : State)
    (run : Run R) (fmt : R → String) (res : Option R) (stf : State)
    (hmain : run_and_handle_panics_with_maybe_debug st0 run fmt
        = .ok (res, stf)) :
    stf.backtrace_resolution_limit = DEFAULT_BACKTRACE_RESOLUTION_LIMIT
      ∧ DEFAULT_BACKTRACE_RESOLUTION_LIMIT = 8
      ∧ stf.is_running = false := by
  cases hrun : st0.is_running with
  | true =>
    rw [run_main_nested st0 run fmt hrun] at hmain
    exact absurd hmain (by simp)
  | false =>
    cases hev : run.events with
    | nil =>
      cases hout : run.outcome with
      | ok r =>
        rw [run_main_success st0 run fmt r hrun hev hout] at hmain
        simp only [Except.ok.injEq, Prod.mk.injEq] at hmain
        obtain ⟨-, h2⟩ := hmain
        rw [← h2]
        exact ⟨rfl, rfl, rfl⟩
      | error info =>
        rw [run_main_unreachable st0 run fmt info hrun hev hout] at hmain
        exact absurd hmain (by simp)
    | cons e es =>
      have hne : run.events ≠ [] := by rw [hev]; exact List.cons_ne_nil e es
      rw [run_main_failing st0 run fmt hrun hne] at hmain
      simp only [Except.ok.injEq, Prod.mk.injEq] at hmain
      obtain ⟨-, h2⟩ := hmain
      rw [← h2]
      exact ⟨rfl, rfl, rfl⟩

theorem scope_release_restores_defaults_witness :
    c7Out.backtrace_resolution_limit = DEFAULT_BACKTRACE_RESOLUTION_LIMIT
      ∧ DEFAULT_BACKTRACE_RESOLUTION_LIMIT = 8
      ∧ c7Out.is_running = false :=
  scope_release_restores_defaults c7St0 c7Run (fun n : Nat => toString n)
    none c7Out rfl

/-- C8: the recorder appends exactly one record; its message is the string
payload verbatim when the payload is a string, and the generic formatting
of the panic info otherwise. -/
theorem register_panic_message_extraction (ctx : ThreadCtx) (st : State)
    (s d : String) :
    (register_panic ctx { payloadStr := some s, display := d } st).panics
        = st.panics ++ [mkPanicRecord ctx { payloadStr := some s, display := d }]
      ∧ (mkPanicRecord ctx { payloadStr := some s, display := d }).message = s
      ∧ (register_panic ctx { payloadStr := none, display := d } st).panics
        = st.panics ++ [mkPanicRecord ctx { payloadStr := none, display := d }]
      ∧ (mkPanicRecord ctx { payloadStr := none, display := d }).message = d :=
  ⟨rfl, rfl, rfl, rfl⟩

/-- C9: a well-formed run in which the closure panicked has its panic among
the registered records, so the `unreachable!()` arm (caller panicked,
registry empty) is never taken: the call returns normally with `None`. -/
theorem caller_panic_never_unreachable {R : Type} (st0 : State)
    (run : Run R) (fmt : R → String) (info : PanicInfo)
    (hr : st0.is_running = false)
    (hwf : run.WF)
    (hout : run.outcome = .error info) :
    run_and_handle_panics_with_maybe_debug st0 run fmt
        ≠ .error unreachable_message
      ∧ ∃ stf : State,
          run_and_handle_panics_with_maybe_debug st0 run fmt
            = .ok (none, stf) := by
  have hne : run.events ≠ [] := by
    intro hnil
    rw [Run.WF, hout] at hwf
    rw [Run.callerEvents, hnil] at hwf
    simp at hwf
  have hmain := run_main_failing st0 run fmt hr hne
  exact ⟨by rw [hmain]; simp, ⟨_, hmain⟩⟩

theorem caller_panic_never_unreachable_witness :
    run_and_handle_panics_with_maybe_debug State.default c9Run
        (fun n : Nat => toString n) ≠ .error unreachable_message
      ∧ ∃ stf : State,
          run_and_handle_panics_with_maybe_debug State.default c9Run
            (fun n : Nat => toString n) = .ok (none, stf) :=
  caller_panic_never_unreachable State.default c9Run
    (fun n : Nat => toString n) c9Info rfl (by decide) rfl

/-- C10: reconciliation only touches the backtrace fields: the records in
`panics()` right after a run returned `None` are the records registered
during the run, in arrival order, with count, message, thread id and
thread label unchanged. -/
theorem reconciliation_frame {R : Type} (st0 : State) (run : Run R)
    (fmt : R → String) (stf : State)
    (hmain : run_and_handle_panics_with_maybe_debug st0 run fmt
        = .ok (none, stf)) :
    (panics stf).length = run.events.length
      ∧ (panics stf).map Panic.message
          = (run.events.map (Event.record run.caller)).map Panic.message
      ∧ (panics stf).map Panic.thread_id
          = (run.events.map (Event.record run.caller)).map Panic.thread_id
      ∧ (panics stf).map Panic.thread
          = (run.events.map (Event.record run.caller)).map Panic.thread := by
  cases hrun : st0.is_running with
  | true =>
    rw [run_main_nested st0 run fmt hrun] at hmain
    exact absurd hmain (by simp)
  | false =>
    by_cases hev : run.events = []
    · cases hout : run.outcome with
      | ok r =>
        rw [run_main_success st0 run fmt r hrun hev hout] at hmain
        simp at hmain
      | error info =>
        rw [run_main_unreachable st0 run fmt info hrun hev hout] at hmain
        exact absurd hmain (by simp)
    · rw [run_main_failing st0 run fmt hrun hev] at hmain
      simp only [Except.ok.injEq, Prod.mk.injEq, true_and] at hmain
      rw [← hmain]
      refine ⟨?_, ?_, ?_, ?_⟩
      · dsimp only [panics]
        rw [resolve_backtraces_length, List.length_map]
      · dsimp only [panics]
        rw [resolve_backtraces_map_message]
      · dsimp only [panics]
        rw [resolve_backtraces_map_thread_id]
      · dsimp only [panics]
        rw [resolve_backtraces_map_thread]

theorem reconciliation_frame_witness :
    (panics c10Out).length = c10Run.events.length
      ∧ (panics c10Out).map Panic.message
          = (c10Run.events.map (Event.record c10Run.caller)).map Panic.message
      ∧ (panics c10Out).map Panic.thread_id
          = (c10Run.events.map (Event.record c10Run.caller)).map
              Panic.thread_id
      ∧ (panics c10Out).map Panic.thread
          = (c10Run.events.map (Event.record c10Run.caller)).map
              Panic.thread :=
  reconciliation_frame State.default c10Run (fun n : Nat => toString n)
    c10Out rfl

end Panik
